import Mathlib

/-! # Verification of the snarkVM parameter-setup pipeline

A shallow embedding of `src/parameters/examples/setup.rs`: the checksum
service, the versioned artifact writer, the metadata emitter, the circuit
identity deriver, the per-kind setup orchestrators and the dispatcher.

Byte buffers are `List Nat` (each element a byte value below 256 when it
comes from real data; packing and extraction reduce modulo 256 exactly where
the Rust `u8` type would). The external proving-system collaborators
(`setup`, `universal_setup`, CRH hashing, canonical serialization) are
abstracted as function-valued structure fields, since the spec treats them
as opaque capabilities. Filesystem and stdout effects are modelled as an
explicit event trace, with an oracle deciding which file creations succeed.
-/

namespace SnarkVMSetup

/-! ## SHA-256 (Checksum Service)

Modelled from the spec: the repository's `sha256` helper (crate
`snarkvm_algorithms`, module `crypto_hash::sha256`) is not part of the
source under scrutiny; the spec fixes it as "a fixed cryptographic hash
(SHA-256 in the reference design)". The definitions below are FIPS 180-4
SHA-256 over byte lists, with 32-bit words represented as `Nat` reduced
modulo `2 ^ 32`. -/

/-- Right-rotation of a 32-bit word (argument below `2 ^ 32`) by `k` bits. -/
def rotr32 (k n : Nat) : Nat :=
  n / 2 ^ k + n % 2 ^ k * 2 ^ (32 - k)

/-- Logical right shift by `k` bits. -/
def shr32 (k n : Nat) : Nat :=
  n / 2 ^ k

/-- Bitwise complement within 32 bits. -/
def not32 (n : Nat) : Nat :=
  Nat.xor n 4294967295

/-- The SHA-256 choice function. -/
def ch (x y z : Nat) : Nat :=
  Nat.xor (Nat.land x y) (Nat.land (not32 x) z)

/-- The SHA-256 majority function. -/
def maj (x y z : Nat) : Nat :=
  Nat.xor (Nat.land x y) (Nat.xor (Nat.land x z) (Nat.land y z))

/-- The big sigma-0 mixing function. -/
def bsig0 (x : Nat) : Nat :=
  Nat.xor (rotr32 2 x) (Nat.xor (rotr32 13 x) (rotr32 22 x))

/-- The big sigma-1 mixing function. -/
def bsig1 (x : Nat) : Nat :=
  Nat.xor (rotr32 6 x) (Nat.xor (rotr32 11 x) (rotr32 25 x))

/-- The small sigma-0 message-schedule function. -/
def ssig0 (x : Nat) : Nat :=
  Nat.xor (rotr32 7 x) (Nat.xor (rotr32 18 x) (shr32 3 x))

/-- The small sigma-1 message-schedule function. -/
def ssig1 (x : Nat) : Nat :=
  Nat.xor (rotr32 17 x) (Nat.xor (rotr32 19 x) (shr32 10 x))

/-- The 64 SHA-256 round constants of FIPS 180-4 section 4.2.2 (the first
32 bits of the fractional parts of the cube roots of the first 64 primes),
written in decimal. -/
def kConstants : List Nat :=
  [1116352408, 1899447441, 3049323471, 3921009573, 961987163, 1508970993,
   2453635748, 2870763221, 3624381080, 310598401, 607225278, 1426881987,
   1925078388, 2162078206, 2614888103, 3248222580, 3835390401, 4022224774,
   264347078, 604807628, 770255983, 1249150122, 1555081692, 1996064986,
   2554220882, 2821834349, 2952996808, 3210313671, 3336571891, 3584528711,
   113926993, 338241895, 666307205, 773529912, 1294757372, 1396182291,
   1695183700, 1986661051, 2177026350, 2456956037, 2730485921, 2820302411,
   3259730800, 3345764771, 3516065817, 3600352804, 4094571909, 275423344,
   430227734, 506948616, 659060556, 883997877, 958139571, 1322822218,
   1537002063, 1747873779, 1955562222, 2024104815, 2227730452, 2361852424,
   2428436474, 2756734187, 3204031479, 3329325298]

/-- The SHA-256 working state: eight 32-bit words. -/
structure Sha256State where
  a : Nat
  b : Nat
  c : Nat
  d : Nat
  e : Nat
  f : Nat
  g : Nat
  hh : Nat
  deriving DecidableEq

/-- The SHA-256 initial hash value of FIPS 180-4 section 5.3.3, in
decimal. -/
def initState : Sha256State :=
  ⟨1779033703, 3144134277, 1013904242, 2773480762, 1359893119, 2600822924,
   528734635, 1541459225⟩

/-- The message length in bits as eight big-endian bytes. -/
def lengthBytesBE (n : Nat) : List Nat :=
  [n / 2 ^ 56 % 256, n / 2 ^ 48 % 256, n / 2 ^ 40 % 256, n / 2 ^ 32 % 256,
   n / 2 ^ 24 % 256, n / 2 ^ 16 % 256, n / 2 ^ 8 % 256, n % 256]

/-- SHA-256 padding: a `0x80` byte, zeros up to 56 mod 64, then the bit
length in big-endian; the result's length is a multiple of 64. -/
def padMessage (msg : List Nat) : List Nat :=
  let zeros := (119 - msg.length % 64) % 64
  msg ++ 128 :: (List.replicate zeros 0 ++ lengthBytesBE (8 * msg.length))

/-- Split a byte list into 64-byte chunks, structurally recursive on a fuel
bound (the list length suffices, since each step consumes 64 bytes). -/
def chunks64Go : Nat → List Nat → List (List Nat)
  | 0, _ => []
  | fuel + 1, l =>
      if l.length < 64 then []
      else l.take 64 :: chunks64Go fuel (l.drop 64)

/-- Split a byte list into 64-byte chunks (the input length is always a
multiple of 64 after padding; a short trailing fragment would be dropped). -/
def chunks64 (l : List Nat) : List (List Nat) :=
  chunks64Go l.length l

/-- Pack bytes into big-endian 32-bit words (each byte reduced mod 256, as
the Rust `u8` type guarantees). -/
def bytesToWords : List Nat → List Nat
  | b0 :: b1 :: b2 :: b3 :: rest =>
      (b0 % 256 * 16777216 + b1 % 256 * 65536 + b2 % 256 * 256 + b3 % 256)
        :: bytesToWords rest
  | _ => []

/-- Extend the 16 chunk words to the 64-entry message schedule. -/
def extendWords : Nat → List Nat → List Nat
  | 0, ws => ws
  | n + 1, ws =>
      let i := ws.length
      let w := (ssig1 (ws.getD (i - 2) 0) + ws.getD (i - 7) 0
        + ssig0 (ws.getD (i - 15) 0) + ws.getD (i - 16) 0) % 4294967296
      extendWords n (ws ++ [w])

/-- One SHA-256 compression round, consuming a round constant and a
schedule word. -/
def roundStep (st : Sha256State) (kw : Nat × Nat) : Sha256State :=
  let t1 := (st.hh + bsig1 st.e + ch st.e st.f st.g + kw.1 + kw.2) % 4294967296
  let t2 := (bsig0 st.a + maj st.a st.b st.c) % 4294967296
  { a := (t1 + t2) % 4294967296, b := st.a, c := st.b, d := st.c,
    e := (st.d + t1) % 4294967296, f := st.e, g := st.f, hh := st.g }

/-- Process one 64-byte chunk: run 64 rounds and add the result into the
running state, word-wise modulo `2 ^ 32`. -/
def processChunk (st : Sha256State) (chunk : List Nat) : Sha256State :=
  let ws := extendWords 48 (bytesToWords chunk)
  let t := (kConstants.zip ws).foldl roundStep st
  { a := (st.a + t.a) % 4294967296, b := (st.b + t.b) % 4294967296,
    c := (st.c + t.c) % 4294967296, d := (st.d + t.d) % 4294967296,
    e := (st.e + t.e) % 4294967296, f := (st.f + t.f) % 4294967296,
    g := (st.g + t.g) % 4294967296, hh := (st.hh + t.hh) % 4294967296 }

/-- A 32-bit word as four big-endian bytes. -/
def wordToBytesBE (w : Nat) : List Nat :=
  [w / 16777216 % 256, w / 65536 % 256, w / 256 % 256, w % 256]

/-- Modelled from the spec: SHA-256 of a byte buffer, as the repository's
`sha256` helper computes it — the 32-byte digest, big-endian per word. -/
def sha256 (msg : List Nat) : List Nat :=
  let st := (chunks64 (padMessage msg)).foldl processChunk initState
  wordToBytesBE st.a ++ wordToBytesBE st.b ++ wordToBytesBE st.c
    ++ wordToBytesBE st.d ++ wordToBytesBE st.e ++ wordToBytesBE st.f
    ++ wordToBytesBE st.g ++ wordToBytesBE st.hh

/-! ## Hex encoding -/

/-- The lowercase hexadecimal digit for a nibble (`0`–`9`, then `a`–`f`). -/
def hexDigitChar (n : Nat) : Char :=
  if n < 10 then Char.ofNat (48 + n) else Char.ofNat (87 + n)

/-- A byte as two lowercase hex characters, high nibble first (for inputs
below 256 this is exactly the split `hex::encode` performs). -/
def hexEncodeByte (b : Nat) : List Char :=
  [hexDigitChar (b / 16 % 16), hexDigitChar (b % 16)]

/-- Lowercase hex encoding of a byte buffer, as `hex::encode` produces it. -/
def hexEncode (bs : List Nat) : String :=
  String.mk (bs.flatMap hexEncodeByte)

/-! ## The checksum service and the versioned filename (from the source) -/

/-- Embeds `fn checksum` of `setup.rs`: lowercase hex of the SHA-256 digest. -/
def checksum (bytes : List Nat) : String :=
  hexEncode (sha256 bytes)

/-- Rust's `str::get(0..7)`: the first seven characters when the string is
at least that long, `none` otherwise (checksums are ASCII, so Rust's byte
indexing agrees with character indexing here). -/
def strGetTo7 (s : String) : Option String :=
  if 7 ≤ s.length then some (String.mk (s.data.take 7)) else none

/-- Embeds `fn versioned_filename` of `setup.rs`: append `.` and the first
seven checksum characters, or fall back to the plain name. -/
def versioned_filename (filename : String) (c : String) : String :=
  match strGetTo7 c with
  | some sum => filename ++ "." ++ sum
  | none => filename

/-! ## Metadata values (Metadata Emitter)

The `json!` object literals of `setup.rs`, with the fields in source
construction order. Serialization to the pretty-printed form is abstracted
as a function `Json → String` (the `serde_json` crate is an external
collaborator; `to_vec_pretty` is the UTF-8 byte view of `to_string_pretty`,
so both stdout and the file receive the same string). -/

/-- A minimal JSON value: strings, numbers and ordered objects. -/
inductive Json where
  | str : String → Json
  | num : Nat → Json
  | obj : List (String × Json) → Json

/-- The field names of a JSON object, in order. -/
def jsonKeys : Json → List String
  | .obj fs => fs.map (fun p => p.1)
  | _ => []

/-- The metadata object built by each per-circuit setup (`inner`, `input`,
`output`, `value_check` all use this shape). -/
def circuit_metadata_json (pcs : String) (psize : Nat) (vcs : String)
    (vsize : Nat) (cid : String) : Json :=
  .obj [("proving_checksum", .str pcs), ("proving_size", .num psize),
        ("verifying_checksum", .str vcs), ("verifying_size", .num vsize),
        ("circuit_id", .str cid)]

/-- The metadata object built by `posw_setup`: no `circuit_id` field. -/
def posw_metadata_json (pcs : String) (psize : Nat) (vcs : String)
    (vsize : Nat) : Json :=
  .obj [("proving_checksum", .str pcs), ("proving_size", .num psize),
        ("verifying_checksum", .str vcs), ("verifying_size", .num vsize)]

/-- The metadata object built by `universal_setup`. -/
def universal_metadata_json (cs : String) (size : Nat) : Json :=
  .obj [("srs_checksum", .str cs), ("srs_size", .num size)]

/-! ## Effects: event traces and outcomes -/

/-- The content written to a file: raw key bytes, or serialized JSON text. -/
inductive FileData where
  | bytes : List Nat → FileData
  | text : String → FileData
  deriving DecidableEq

/-- An observable effect of a run: a line on stdout (via `println!`), a line
on stderr (via `eprintln!`), or a completed file write. -/
inductive Event where
  | stdout : String → Event
  | stderrLine : String → Event
  | fileWrite : String → FileData → Event
  deriving DecidableEq

/-- How a run ends: `Ok(())` (process exit code 0), a propagated `Err`
(non-zero exit after printing the error), or an unrecoverable abort
carrying the diagnostic message. -/
inductive RunExit where
  | ok : RunExit
  | err : RunExit
  | panicked : String → RunExit
  deriving DecidableEq

/-- A run's observable behaviour: its event trace and how it ended. -/
abbrev SetupOut := List Event × RunExit

/-- Sequence two effectful steps, short-circuiting on error or abort (the
`?` operator of the source). -/
def seqE (x : SetupOut) (f : Unit → SetupOut) : SetupOut :=
  match x.2 with
  | .ok => ((x.1 ++ (f ()).1 : List Event), (f ()).2)
  | e => (x.1, e)

/-! ## The writers (from the source)

`File::create` may fail; a filesystem oracle `fsOk` records, per file name,
whether creating and fully writing that file succeeds in this run. -/

/-- Embeds `fn write_remote`: write the bytes under the versioned name. -/
def write_remote (fsOk : String → Bool) (filename version : String)
    (bytes : List Nat) : SetupOut :=
  let fname := versioned_filename filename version
  if fsOk fname then ([.fileWrite fname (.bytes bytes)], .ok)
  else ([], .err)

/-- Embeds `fn write_local`: write the bytes under the plain name. -/
def write_local (fsOk : String → Bool) (filename : String)
    (bytes : List Nat) : SetupOut :=
  if fsOk filename then ([.fileWrite filename (.bytes bytes)], .ok)
  else ([], .err)

/-- Embeds `fn write_metadata`: write the pretty-serialized JSON under the
plain name. -/
def write_metadata (fsOk : String → Bool) (serialize : Json → String)
    (filename : String) (metadata : Json) : SetupOut :=
  if fsOk filename then ([.fileWrite filename (.text (serialize metadata))], .ok)
  else ([], .err)

/-! ## External collaborators

Modelled from the spec: the proving-system crates (`snarkvm_algorithms`,
`snarkvm_dpc`, `snarkvm_utilities`) are outside the source under scrutiny;
the spec exposes them as opaque capabilities (`setup`, `universal_setup`,
`max_degree`, `to_bytes_le` / `to_canonical_bytes`, `to_minimal_bits`, and a
network-scoped identity hash). Each capability is a structure field over
abstract key/digest types; randomness is non-deterministic and never
replayed, so each function value stands for one invocation's outcome. -/

/-- The collaborator surface a per-circuit setup consumes: key
serialization, the verifying key's minimal-bit view, and the network's
circuit-identity CRH with little-endian serialization of its digest. -/
structure CircuitCollab (PK VK DG : Type) where
  pkToBytesLE : PK → List Nat
  vkToBytesLE : VK → List Nat
  vkToMinimalBits : VK → List Bool
  crhHash : List Bool → DG
  digestToBytesLE : DG → List Nat

/-- The collaborator surface `universal_setup` consumes: the AHP degree
computation, the universal SRS generation (randomness folded in), and SRS
serialization. -/
structure UniversalCollab (SRS : Type) where
  maxDegree : Nat → Nat → Nat → Nat
  universalSetup : Nat → SRS
  srsToBytesLE : SRS → List Nat

/-- The result of the PoSW scheme's setup: the proving key is optional in
the source (`posw.proving_key()` returns an `Option`). -/
structure PoswKeys (PK VK : Type) where
  provingKey : Option PK
  verifyingKey : VK

/-- The collaborator surface `posw_setup` consumes. `poswSetup` stands for
`FromBytes::read_le` on the SRS bytes followed by
`PoSW::setup(SRS::Universal(..))`. -/
structure PoswCollab (SRS PK VK : Type) where
  maxDegree : Nat → Nat → Nat → Nat
  universalSetup : Nat → SRS
  srsToBytesLE : SRS → List Nat
  poswSetup : List Nat → PoswKeys PK VK
  pkToBytesLE : PK → List Nat
  vkToBytesLE : VK → List Nat

/-! ## The circuit identity deriver and the per-circuit orchestrator -/

/-- The circuit-identity derivation of the source:
`hex::encode(crh().hash(&vk.to_minimal_bits())?.to_bytes_le()?)` — the CRH
is applied to the minimal-bit view of the structured verifying key, its
digest is serialized little-endian and hex-encoded. -/
def derive_identity {PK VK DG : Type} (C : CircuitCollab PK VK DG)
    (vk : VK) : String :=
  hexEncode (C.digestToBytesLE (C.crhHash (C.vkToMinimalBits vk)))

/-- The common body of `inner_setup`, `input_setup`, `output_setup` and
`value_check_setup` (four near-identical routines in the source),
parameterized by the three output names and taking the successful external
`setup` result `(pk, vk)`. -/
def circuit_setup {PK VK DG : Type} (mdName pkName vkName : String)
    (C : CircuitCollab PK VK DG) (serialize : Json → String)
    (fsOk : String → Bool) (pk : PK) (vk : VK) : SetupOut :=
  let cid := derive_identity C vk
  let pkBytes := C.pkToBytesLE pk
  let provingChecksum := checksum pkBytes
  let vkBytes := C.vkToBytesLE vk
  let md := circuit_metadata_json provingChecksum pkBytes.length
    (checksum vkBytes) vkBytes.length cid
  seqE ([.stdout (serialize md)], .ok) fun _ =>
  seqE (write_metadata fsOk serialize mdName md) fun _ =>
  seqE (write_remote fsOk pkName provingChecksum pkBytes) fun _ =>
  write_local fsOk vkName vkBytes

/-- Embeds `fn inner_setup`. -/
def inner_setup {PK VK DG : Type} (C : CircuitCollab PK VK DG)
    (serialize : Json → String) (fsOk : String → Bool) (pk : PK) (vk : VK) :
    SetupOut :=
  circuit_setup "inner.metadata" "inner.proving" "inner.verifying"
    C serialize fsOk pk vk

/-- Embeds `fn input_setup`. -/
def input_setup {PK VK DG : Type} (C : CircuitCollab PK VK DG)
    (serialize : Json → String) (fsOk : String → Bool) (pk : PK) (vk : VK) :
    SetupOut :=
  circuit_setup "input.metadata" "input.proving" "input.verifying"
    C serialize fsOk pk vk

/-- Embeds `fn output_setup`. -/
def output_setup {PK VK DG : Type} (C : CircuitCollab PK VK DG)
    (serialize : Json → String) (fsOk : String → Bool) (pk : PK) (vk : VK) :
    SetupOut :=
  circuit_setup "output.metadata" "output.proving" "output.verifying"
    C serialize fsOk pk vk

/-- Embeds `fn value_check_setup`. -/
def value_check_setup {PK VK DG : Type} (C : CircuitCollab PK VK DG)
    (serialize : Json → String) (fsOk : String → Bool) (pk : PK) (vk : VK) :
    SetupOut :=
  circuit_setup "value_check.metadata" "value_check.proving"
    "value_check.verifying" C serialize fsOk pk vk

/-- Embeds `fn universal_setup`: degree bound from the hard-coded triple
(2000000, 4000000, 8000000), SRS generation and serialization, metadata,
then the versioned SRS write. -/
def universal_setup {SRS : Type} (C : UniversalCollab SRS)
    (serialize : Json → String) (fsOk : String → Bool) : SetupOut :=
  let max_degree := C.maxDegree 2000000 4000000 8000000
  let universal_srs := C.srsToBytesLE (C.universalSetup max_degree)
  let universal_checksum := checksum universal_srs
  let md := universal_metadata_json universal_checksum universal_srs.length
  seqE ([.stdout (serialize md)], .ok) fun _ =>
  seqE (write_metadata fsOk serialize "universal.metadata" md) fun _ =>
  write_remote fsOk "universal.srs" universal_checksum universal_srs

/-- Embeds `fn posw_setup`: degree bound from the hard-coded triple
(40000, 40000, 60000), a universal-style SRS generation, a second setup
call consuming the SRS bytes, then metadata (no circuit id) and the key
writes; a missing proving key aborts via `expect`. -/
def posw_setup {SRS PK VK : Type} (C : PoswCollab SRS PK VK)
    (serialize : Json → String) (fsOk : String → Bool) : SetupOut :=
  let max_degree := C.maxDegree 40000 40000 60000
  let srs_bytes := C.srsToBytesLE (C.universalSetup max_degree)
  let ev0 : List Event := [.stdout ("srs\n\tsize - " ++ toString srs_bytes.length)]
  let posw := C.poswSetup srs_bytes
  match posw.provingKey with
  | none => (ev0, .panicked "posw_proving_key is missing")
  | some pk =>
    let pkBytes := C.pkToBytesLE pk
    let provingChecksum := checksum pkBytes
    let vkBytes := C.vkToBytesLE posw.verifyingKey
    let md := posw_metadata_json provingChecksum pkBytes.length
      (checksum vkBytes) vkBytes.length
    seqE (ev0, .ok) fun _ =>
    seqE ([.stdout (serialize md)], .ok) fun _ =>
    seqE (write_metadata fsOk serialize "posw.metadata" md) fun _ =>
    seqE (write_remote fsOk "posw.proving" provingChecksum pkBytes) fun _ =>
    write_local fsOk "posw.verifying" vkBytes

/-! ## The dispatcher (from `fn main`) -/

/-- One run outcome per supported kind-and-network instantiation; the
dispatcher routes to one of these. Each field stands for the behaviour of
the corresponding orchestrator call in this run. -/
structure SetupRunners where
  innerT1 : SetupOut
  innerT2 : SetupOut
  poswT1 : SetupOut
  poswT2 : SetupOut
  universalT2 : SetupOut
  inputT1 : SetupOut
  inputT2 : SetupOut
  outputT1 : SetupOut
  outputT2 : SetupOut
  valueCheckT1 : SetupOut
  valueCheckT2 : SetupOut

/-- The selector match of `fn main` on `args[1]` (the parameter kind) and
`args[2]` (the network), reached only when at least three argv entries are
present: route to the orchestrator, aborting on anything unrecognized and
on `universal` + `testnet1`. -/
def dispatchKind (R : SetupRunners) (kind net : String) : SetupOut :=
  if kind = "inner" then
      if net = "testnet1" then R.innerT1
      else if net = "testnet2" then R.innerT2
      else ([], .panicked "Invalid network")
    else if kind = "posw" then
      if net = "testnet1" then R.poswT1
      else if net = "testnet2" then R.poswT2
      else ([], .panicked "Invalid network")
    else if kind = "universal" then
      if net = "testnet1" then
        ([], .panicked "Testnet1 does not support a universal SRS")
      else if net = "testnet2" then R.universalT2
      else ([], .panicked "Invalid network")
    else if kind = "input" then
      if net = "testnet1" then R.inputT1
      else if net = "testnet2" then R.inputT2
      else ([], .panicked "Invalid network")
    else if kind = "output" then
      if net = "testnet1" then R.outputT1
      else if net = "testnet2" then R.outputT2
      else ([], .panicked "Invalid network")
    else if kind = "value_check" then
      if net = "testnet1" then R.valueCheckT1
      else if net = "testnet2" then R.valueCheckT2
      else ([], .panicked "Invalid network")
    else ([], .panicked "Invalid parameter")

/-- Embeds `fn main`: with fewer than three argv entries (program name plus
two selectors), print the usage diagnostic on stderr and return `Ok(())` —
exit code 0; otherwise dispatch on `args[1]` and `args[2]`. -/
def mainRun (R : SetupRunners) (args : List String) : SetupOut :=
  match args with
  | _ :: kind :: net :: _ => dispatchKind R kind net
  | short =>
    ([.stderrLine ("Invalid number of arguments. Given: "
        ++ toString (short.length - 1) ++ " - Required: 2")], .ok)

/-! ## Basic facts about the checksum service -/

/-- Membership in the lowercase hexadecimal alphabet. -/
def isLowerHexChar (c : Char) : Prop :=
  c ∈ "0123456789abcdef".data

instance (c : Char) : Decidable (isLowerHexChar c) := by
  unfold isLowerHexChar; infer_instance

/-- A SHA-256 digest has exactly 32 bytes. -/
theorem sha256_length (msg : List Nat) : (sha256 msg).length = 32 := rfl

theorem flatMap_hexEncodeByte_length (l : List Nat) :
    (l.flatMap hexEncodeByte).length = 2 * l.length := by
  induction l with
  | nil => rfl
  | cons a t ih =>
      rw [List.flatMap_cons, List.length_append, ih, List.length_cons]
      show 2 + 2 * t.length = 2 * (t.length + 1)
      omega

/-- A checksum is always 64 characters long. -/
theorem checksum_length (b : List Nat) : (checksum b).length = 64 := by
  show (String.mk ((sha256 b).flatMap hexEncodeByte)).length = 64
  show ((sha256 b).flatMap hexEncodeByte).length = 64
  rw [flatMap_hexEncodeByte_length, sha256_length]

theorem hexDigitChar_lowerHex {n : Nat} (hn : n < 16) :
    isLowerHexChar (hexDigitChar n) := by
  interval_cases n <;> decide

/-- Every character a hex encoding emits is a lowercase hex digit. -/
theorem hexEncode_chars {bs : List Nat} {c : Char}
    (hc : c ∈ (hexEncode bs).data) : isLowerHexChar c := by
  simp only [hexEncode, String.data, List.mem_flatMap] at hc
  obtain ⟨a, _, hmem⟩ := hc
  simp only [hexEncodeByte, List.mem_cons, List.not_mem_nil, or_false] at hmem
  rcases hmem with h | h <;> subst h
  · exact hexDigitChar_lowerHex (Nat.mod_lt _ (by norm_num))
  · exact hexDigitChar_lowerHex (Nat.mod_lt _ (by norm_num))

/-- The long-checksum branch of the versioned filename. -/
theorem versioned_filename_of_le (n c : String) (h : 7 ≤ c.length) :
    versioned_filename n c = n ++ "." ++ String.mk (c.data.take 7) := by
  simp [versioned_filename, strGetTo7, h]

/-- The short-checksum fallback branch of the versioned filename. -/
theorem versioned_filename_of_lt (n c : String) (h : c.length < 7) :
    versioned_filename n c = n := by
  simp [versioned_filename, strGetTo7, Nat.not_le.mpr h]

/-- Applied to a checksum, the versioned filename always takes the suffix
branch: checksums have 64 characters. -/
theorem versioned_filename_checksum (n : String) (b : List Nat) :
    versioned_filename n (checksum b)
      = n ++ "." ++ String.mk ((checksum b).data.take 7) :=
  versioned_filename_of_le n _ (by rw [checksum_length]; omega)

/-! ## Trace characterizations of the orchestrators -/

/-- The complete behaviour of the generic per-circuit orchestrator, by
cases on which file creations succeed. -/
theorem circuit_setup_eq {PK VK DG : Type} (n₁ n₂ n₃ : String)
    (C : CircuitCollab PK VK DG) (s : Json → String) (fsOk : String → Bool)
    (pk : PK) (vk : VK) :
    circuit_setup n₁ n₂ n₃ C s fsOk pk vk =
      (let pkBytes := C.pkToBytesLE pk
       let vkBytes := C.vkToBytesLE vk
       let pcs := checksum pkBytes
       let md := circuit_metadata_json pcs pkBytes.length (checksum vkBytes)
         vkBytes.length (derive_identity C vk)
       let pkFile := versioned_filename n₂ pcs
       if fsOk n₁ then
         if fsOk pkFile then
           if fsOk n₃ then
             ([.stdout (s md), .fileWrite n₁ (.text (s md)),
               .fileWrite pkFile (.bytes pkBytes),
               .fileWrite n₃ (.bytes vkBytes)], .ok)
           else
             ([.stdout (s md), .fileWrite n₁ (.text (s md)),
               .fileWrite pkFile (.bytes pkBytes)], .err)
         else ([.stdout (s md), .fileWrite n₁ (.text (s md))], .err)
       else ([.stdout (s md)], .err)) := by
  cases h1 : fsOk n₁ <;>
    cases h2 : fsOk (versioned_filename n₂ (checksum (C.pkToBytesLE pk))) <;>
      cases h3 : fsOk n₃ <;>
        simp [circuit_setup, seqE, write_metadata, write_remote, write_local,
          h1, h2, h3]

/-- The complete behaviour of the universal-SRS orchestrator. -/
theorem universal_setup_eq {SRS : Type} (C : UniversalCollab SRS)
    (s : Json → String) (fsOk : String → Bool) :
    universal_setup C s fsOk =
      (let srs := C.srsToBytesLE (C.universalSetup
        (C.maxDegree 2000000 4000000 8000000))
       let cs := checksum srs
       let md := universal_metadata_json cs srs.length
       let srsFile := versioned_filename "universal.srs" cs
       if fsOk "universal.metadata" then
         if fsOk srsFile then
           ([.stdout (s md), .fileWrite "universal.metadata" (.text (s md)),
             .fileWrite srsFile (.bytes srs)], .ok)
         else ([.stdout (s md),
             .fileWrite "universal.metadata" (.text (s md))], .err)
       else ([.stdout (s md)], .err)) := by
  cases h1 : fsOk "universal.metadata" <;>
    cases h2 : fsOk (versioned_filename "universal.srs"
      (checksum (C.srsToBytesLE (C.universalSetup
        (C.maxDegree 2000000 4000000 8000000))))) <;>
      simp [universal_setup, seqE, write_metadata, write_remote, h1, h2]

/-- PoSW setup aborts when the second-phase setup yields no proving key. -/
theorem posw_setup_eq_none {SRS PK VK : Type} (C : PoswCollab SRS PK VK)
    (s : Json → String) (fsOk : String → Bool)
    (h : (C.poswSetup (C.srsToBytesLE (C.universalSetup
      (C.maxDegree 40000 40000 60000)))).provingKey = none) :
    posw_setup C s fsOk =
      ([.stdout ("srs\n\tsize - " ++ toString (C.srsToBytesLE (C.universalSetup
          (C.maxDegree 40000 40000 60000))).length)],
        .panicked "posw_proving_key is missing") := by
  simp [posw_setup, h]

/-- The complete behaviour of the PoSW orchestrator when the second-phase
setup yields a proving key. -/
theorem posw_setup_eq_some {SRS PK VK : Type} (C : PoswCollab SRS PK VK)
    (s : Json → String) (fsOk : String → Bool) (pk2 : PK)
    (h : (C.poswSetup (C.srsToBytesLE (C.universalSetup
      (C.maxDegree 40000 40000 60000)))).provingKey = some pk2) :
    posw_setup C s fsOk =
      (let srsBytes := C.srsToBytesLE (C.universalSetup
        (C.maxDegree 40000 40000 60000))
       let srsLine : Event := .stdout ("srs\n\tsize - " ++ toString srsBytes.length)
       let pkBytes := C.pkToBytesLE pk2
       let vkBytes := C.vkToBytesLE (C.poswSetup srsBytes).verifyingKey
       let pcs := checksum pkBytes
       let md := posw_metadata_json pcs pkBytes.length (checksum vkBytes)
         vkBytes.length
       let pkFile := versioned_filename "posw.proving" pcs
       if fsOk "posw.metadata" then
         if fsOk pkFile then
           if fsOk "posw.verifying" then
             ([srsLine, .stdout (s md),
               .fileWrite "posw.metadata" (.text (s md)),
               .fileWrite pkFile (.bytes pkBytes),
               .fileWrite "posw.verifying" (.bytes vkBytes)], .ok)
           else
             ([srsLine, .stdout (s md),
               .fileWrite "posw.metadata" (.text (s md)),
               .fileWrite pkFile (.bytes pkBytes)], .err)
         else ([srsLine, .stdout (s md),
             .fileWrite "posw.metadata" (.text (s md))], .err)
       else ([srsLine, .stdout (s md)], .err)) := by
  cases h1 : fsOk "posw.metadata" <;>
    cases h2 : fsOk (versioned_filename "posw.proving"
      (checksum (C.pkToBytesLE pk2))) <;>
      cases h3 : fsOk "posw.verifying" <;>
        simp [posw_setup, seqE, write_metadata, write_remote, write_local,
          h, h1, h2, h3]

/-! ## Claim theorems -/

/-- C1: for every byte buffer `b`, `checksum b` is the lowercase
hexadecimal encoding of the SHA-256 digest of `b`, and it is a pure
deterministic function — identical buffers produce identical output. The
closing conjunct pins the model to SHA-256 through the standard "abc" test
vector. -/
theorem claim_C1_checksum_sha256_hex :
    (∀ b : List Nat, checksum b = hexEncode (sha256 b)
      ∧ ∀ c ∈ (checksum b).data, isLowerHexChar c)
    ∧ (∀ b b' : List Nat, b = b' → checksum b = checksum b')
    ∧ checksum [97, 98, 99]
        = "ba7816bf8f01cfea414140de5dae2223b00361a396177a9cb410ff61f20015ad" := by
  refine ⟨fun b => ⟨rfl, fun c hc => hexEncode_chars hc⟩,
    fun b b' hb => hb ▸ rfl, ?_⟩
  decide

/-- Witness for C1 at concrete inputs. -/
theorem claim_C1_witness :
    checksum [0] = checksum [0]
    ∧ isLowerHexChar 'b' := by
  refine ⟨claim_C1_checksum_sha256_hex.2.1 [0] [0] rfl, ?_⟩
  exact (claim_C1_checksum_sha256_hex.1 [97, 98, 99]).2 'b'
    (by rw [claim_C1_checksum_sha256_hex.2.2]; decide)

/-- C2: `versioned_filename name c` is `name ++ "." ++ c[0:7]` when `c` has
at least 7 characters, and `name` unchanged when it has fewer — a defined
fallback, not an error. -/
theorem claim_C2_versioned_filename (name c : String) :
    (7 ≤ c.length →
      versioned_filename name c = name ++ "." ++ String.mk (c.data.take 7))
    ∧ (c.length < 7 → versioned_filename name c = name) := by
  constructor
  · intro h
    simp [versioned_filename, strGetTo7, h]
  · intro h
    simp [versioned_filename, strGetTo7, Nat.not_le.mpr h]

/-- Witness for C2 at checksums of lengths 0, 3, 7 and 64. -/
theorem claim_C2_witness :
    versioned_filename "inner.proving" "" = "inner.proving"
    ∧ versioned_filename "inner.proving" "abc" = "inner.proving"
    ∧ versioned_filename "inner.proving" "abcdefg" = "inner.proving.abcdefg"
    ∧ versioned_filename "inner.proving"
        "0123456789abcdef0123456789abcdef0123456789abcdef0123456789abcdef"
      = "inner.proving.0123456" := by
  refine ⟨(claim_C2_versioned_filename _ _).2 (by decide),
    (claim_C2_versioned_filename _ _).2 (by decide),
    ((claim_C2_versioned_filename _ _).1 (by decide)).trans (by decide),
    ((claim_C2_versioned_filename _ _).1 (by decide)).trans (by decide)⟩

/-- C3: the circuit identity of every per-circuit setup is the hex encoding
of the little-endian byte serialization of the network's identity hash
applied to the minimal-bit view of the structured verifying key; it is
deterministic; and it is a function of the minimal bits, not of the key's
byte serialization (witnessed by a collaborator where two keys share bytes
but differ in identity). -/
theorem claim_C3_derive_identity {PK VK DG : Type} (C : CircuitCollab PK VK DG)
    (serialize : Json → String) (fsOk : String → Bool) (pk : PK) (vk vk' : VK) :
    (derive_identity C vk
        = hexEncode (C.digestToBytesLE (C.crhHash (C.vkToMinimalBits vk))))
    ∧ (vk = vk' → derive_identity C vk = derive_identity C vk')
    ∧ (∀ mdName pkName vkName : String,
        (circuit_setup mdName pkName vkName C serialize fsOk pk vk).1.head?
          = some (.stdout (serialize (circuit_metadata_json
              (checksum (C.pkToBytesLE pk)) (C.pkToBytesLE pk).length
              (checksum (C.vkToBytesLE vk)) (C.vkToBytesLE vk).length
              (derive_identity C vk)))))
    ∧ (∃ (C₀ : CircuitCollab Unit (List Bool) (List Bool)) (v₁ v₂ : List Bool),
        C₀.vkToBytesLE v₁ = C₀.vkToBytesLE v₂
          ∧ derive_identity C₀ v₁ ≠ derive_identity C₀ v₂) := by
  refine ⟨rfl, fun h => h ▸ rfl, fun n₁ n₂ n₃ => ?_, ?_⟩
  · rw [circuit_setup_eq]
    cases h1 : fsOk n₁ <;>
      cases h2 : fsOk (versioned_filename n₂ (checksum (C.pkToBytesLE pk))) <;>
        cases h3 : fsOk n₃ <;> simp [h1, h2, h3]
  · refine ⟨⟨fun _ => [], fun _ => [], id, id,
      fun bs => if bs.isEmpty then [0] else [1]⟩, [], [true], rfl, ?_⟩
    decide

/-- Witness for C3 at a concrete collaborator and key. -/
theorem claim_C3_witness :
    derive_identity
      (⟨fun _ => [], fun _ => [], id, id, fun bs => bs.map fun b => cond b 1 0⟩
        : CircuitCollab Unit (List Bool) (List Bool)) [true]
      = derive_identity
        (⟨fun _ => [], fun _ => [], id, id, fun bs => bs.map fun b => cond b 1 0⟩
          : CircuitCollab Unit (List Bool) (List Bool)) [true] :=
  (claim_C3_derive_identity _ (fun _ => "") (fun _ => true) () [true]
    [true]).2.1 rfl

/-- C4: per-circuit metadata carries exactly the five fields
`proving_checksum, proving_size, verifying_checksum, verifying_size,
circuit_id`; universal metadata carries exactly `srs_checksum, srs_size`;
posw metadata carries no `circuit_id`, and neither does universal. -/
theorem claim_C4_metadata_fields (pcs vcs cid cs : String)
    (psize vsize size : Nat) :
    jsonKeys (circuit_metadata_json pcs psize vcs vsize cid)
      = ["proving_checksum", "proving_size", "verifying_checksum",
         "verifying_size", "circuit_id"]
    ∧ jsonKeys (universal_metadata_json cs size) = ["srs_checksum", "srs_size"]
    ∧ jsonKeys (posw_metadata_json pcs psize vcs vsize)
      = ["proving_checksum", "proving_size", "verifying_checksum",
         "verifying_size"]
    ∧ "circuit_id" ∉ jsonKeys (posw_metadata_json pcs psize vcs vsize)
    ∧ "circuit_id" ∉ jsonKeys (universal_metadata_json cs size) := by
  refine ⟨rfl, rfl, rfl, ?_, ?_⟩ <;> simp [jsonKeys, posw_metadata_json,
    universal_metadata_json]

/-- C5: in every run, the JSON value printed to stdout and the value
persisted to the metadata file are the same serialized string; the stdout
print is the first event (for posw, right after the SRS size line), before
the metadata write; and it happens even when the metadata write fails, in
which case no metadata file write occurs. Stated for the generic
per-circuit orchestrator, the universal orchestrator and the PoSW
orchestrator. -/
theorem claim_C5_metadata_roundtrip {PK VK DG SRS PK2 VK2 : Type}
    (C : CircuitCollab PK VK DG) (Cu : UniversalCollab SRS)
    (Cp : PoswCollab SRS PK2 VK2) (serialize : Json → String)
    (fsOk : String → Bool) (pk : PK) (vk : VK) (n₁ n₂ n₃ : String) :
    ((circuit_setup n₁ n₂ n₃ C serialize fsOk pk vk).1.head?
        = some (.stdout (serialize (circuit_metadata_json
            (checksum (C.pkToBytesLE pk)) (C.pkToBytesLE pk).length
            (checksum (C.vkToBytesLE vk)) (C.vkToBytesLE vk).length
            (derive_identity C vk))))
      ∧ (fsOk n₁ = true →
          (circuit_setup n₁ n₂ n₃ C serialize fsOk pk vk).1.get? 1
            = some (.fileWrite n₁ (.text (serialize (circuit_metadata_json
                (checksum (C.pkToBytesLE pk)) (C.pkToBytesLE pk).length
                (checksum (C.vkToBytesLE vk)) (C.vkToBytesLE vk).length
                (derive_identity C vk))))))
      ∧ (fsOk n₁ = false →
          ∀ n d, Event.fileWrite n d
            ∉ (circuit_setup n₁ n₂ n₃ C serialize fsOk pk vk).1))
    ∧ ((universal_setup Cu serialize fsOk).1.head?
        = some (.stdout (serialize (universal_metadata_json
            (checksum (Cu.srsToBytesLE (Cu.universalSetup
              (Cu.maxDegree 2000000 4000000 8000000))))
            (Cu.srsToBytesLE (Cu.universalSetup
              (Cu.maxDegree 2000000 4000000 8000000))).length)))
      ∧ (fsOk "universal.metadata" = true →
          (universal_setup Cu serialize fsOk).1.get? 1
            = some (.fileWrite "universal.metadata"
                (.text (serialize (universal_metadata_json
                  (checksum (Cu.srsToBytesLE (Cu.universalSetup
                    (Cu.maxDegree 2000000 4000000 8000000))))
                  (Cu.srsToBytesLE (Cu.universalSetup
                    (Cu.maxDegree 2000000 4000000 8000000))).length)))))
      ∧ (fsOk "universal.metadata" = false →
          ∀ n d, Event.fileWrite n d ∉ (universal_setup Cu serialize fsOk).1))
    ∧ (∀ pk2, (Cp.poswSetup (Cp.srsToBytesLE (Cp.universalSetup
          (Cp.maxDegree 40000 40000 60000)))).provingKey = some pk2 →
        (posw_setup Cp serialize fsOk).1.get? 1
          = some (.stdout (serialize (posw_metadata_json
              (checksum (Cp.pkToBytesLE pk2)) (Cp.pkToBytesLE pk2).length
              (checksum (Cp.vkToBytesLE (Cp.poswSetup (Cp.srsToBytesLE
                (Cp.universalSetup (Cp.maxDegree 40000 40000 60000)))).verifyingKey))
              (Cp.vkToBytesLE (Cp.poswSetup (Cp.srsToBytesLE
                (Cp.universalSetup (Cp.maxDegree 40000 40000 60000)))).verifyingKey).length)))
        ∧ (fsOk "posw.metadata" = true →
            (posw_setup Cp serialize fsOk).1.get? 2
              = some (.fileWrite "posw.metadata" (.text (serialize (posw_metadata_json
                  (checksum (Cp.pkToBytesLE pk2)) (Cp.pkToBytesLE pk2).length
                  (checksum (Cp.vkToBytesLE (Cp.poswSetup (Cp.srsToBytesLE
                    (Cp.universalSetup (Cp.maxDegree 40000 40000 60000)))).verifyingKey))
                  (Cp.vkToBytesLE (Cp.poswSetup (Cp.srsToBytesLE
                    (Cp.universalSetup (Cp.maxDegree 40000 40000 60000)))).verifyingKey).length)))))
        ∧ (fsOk "posw.metadata" = false →
            ∀ n d, Event.fileWrite n d ∉ (posw_setup Cp serialize fsOk).1)) := by
  refine ⟨⟨?_, ?_, ?_⟩, ⟨?_, ?_, ?_⟩, fun pk2 hpk => ⟨?_, ?_, ?_⟩⟩ <;>
    [skip; skip; skip; skip; skip; skip;
     rw [posw_setup_eq_some Cp serialize fsOk pk2 hpk];
     rw [posw_setup_eq_some Cp serialize fsOk pk2 hpk];
     rw [posw_setup_eq_some Cp serialize fsOk pk2 hpk]] <;>
    first
    | (rw [circuit_setup_eq]
       cases h1 : fsOk n₁ <;>
         cases h2 : fsOk (versioned_filename n₂ (checksum (C.pkToBytesLE pk))) <;>
           cases h3 : fsOk n₃ <;> simp [h1, h2, h3])
    | (rw [universal_setup_eq]
       cases h1 : fsOk "universal.metadata" <;>
         cases h2 : fsOk (versioned_filename "universal.srs"
           (checksum (Cu.srsToBytesLE (Cu.universalSetup
             (Cu.maxDegree 2000000 4000000 8000000))))) <;> simp [h1, h2])
    | (cases h1 : fsOk "posw.metadata" <;>
         cases h2 : fsOk (versioned_filename "posw.proving"
           (checksum (Cp.pkToBytesLE pk2))) <;>
           cases h3 : fsOk "posw.verifying" <;> simp [h1, h2, h3])

/-- Witness for C5 at concrete collaborators with all writes succeeding
(and, for posw, with the metadata write failing in a second instance). -/
theorem claim_C5_witness :
    (circuit_setup "a" "b" "c"
        (⟨fun _ => [], fun _ => [], fun _ => [], fun _ => (), fun _ => []⟩
          : CircuitCollab Unit Unit Unit)
        (fun _ => "md") (fun _ => true) () ()).1.get? 1
      = some (.fileWrite "a" (.text "md"))
    ∧ (posw_setup
        (⟨fun _ _ _ => 0, fun _ => (), fun _ => [], fun _ => ⟨some (), ()⟩,
          fun _ => [], fun _ => []⟩ : PoswCollab Unit Unit Unit)
        (fun _ => "md") (fun _ => true)).1.get? 2
      = some (.fileWrite "posw.metadata" (.text "md")) := by
  have h := claim_C5_metadata_roundtrip
    (⟨fun _ => [], fun _ => [], fun _ => [], fun _ => (), fun _ => []⟩
      : CircuitCollab Unit Unit Unit)
    (⟨fun _ _ _ => 0, fun _ => (), fun _ => []⟩ : UniversalCollab Unit)
    (⟨fun _ _ _ => 0, fun _ => (), fun _ => [], fun _ => ⟨some (), ()⟩,
      fun _ => [], fun _ => []⟩ : PoswCollab Unit Unit Unit)
    (fun _ => "md") (fun _ => true) () () "a" "b" "c"
  exact ⟨h.1.2.1 rfl, (h.2.2 () rfl).2.1 rfl⟩

/-- C6: the four per-circuit setups instantiate the generic orchestrator at
their fixed working-directory names; every successful run writes the
metadata file, then the proving key under the versioned
`<name>.<first-7-hex-of-checksum>` distribution name (via `write_remote`),
then the verifying key under its plain name (via `write_local`); the posw
setup likewise persists `posw.metadata`, the versioned `posw.proving`
artifact and the plain `posw.verifying`; the universal setup instead
writes `universal.metadata` and the versioned `universal.srs` artifact. -/
theorem claim_C6_artifact_names {PK VK DG SRS : Type}
    (C : CircuitCollab PK VK DG) (Cu : UniversalCollab SRS)
    (serialize : Json → String) (fsOk : String → Bool) (pk : PK) (vk : VK)
    (n₁ n₂ n₃ : String) :
    (inner_setup C serialize fsOk pk vk
      = circuit_setup "inner.metadata" "inner.proving" "inner.verifying"
          C serialize fsOk pk vk)
    ∧ (input_setup C serialize fsOk pk vk
      = circuit_setup "input.metadata" "input.proving" "input.verifying"
          C serialize fsOk pk vk)
    ∧ (output_setup C serialize fsOk pk vk
      = circuit_setup "output.metadata" "output.proving" "output.verifying"
          C serialize fsOk pk vk)
    ∧ (value_check_setup C serialize fsOk pk vk
      = circuit_setup "value_check.metadata" "value_check.proving"
          "value_check.verifying" C serialize fsOk pk vk)
    ∧ ((circuit_setup n₁ n₂ n₃ C serialize fsOk pk vk).2 = .ok →
        (circuit_setup n₁ n₂ n₃ C serialize fsOk pk vk).1
          = [.stdout (serialize (circuit_metadata_json
               (checksum (C.pkToBytesLE pk)) (C.pkToBytesLE pk).length
               (checksum (C.vkToBytesLE vk)) (C.vkToBytesLE vk).length
               (derive_identity C vk))),
             .fileWrite n₁ (.text (serialize (circuit_metadata_json
               (checksum (C.pkToBytesLE pk)) (C.pkToBytesLE pk).length
               (checksum (C.vkToBytesLE vk)) (C.vkToBytesLE vk).length
               (derive_identity C vk)))),
             .fileWrite (n₂ ++ "." ++ String.mk
                 ((checksum (C.pkToBytesLE pk)).data.take 7))
               (.bytes (C.pkToBytesLE pk)),
             .fileWrite n₃ (.bytes (C.vkToBytesLE vk))])
    ∧ ((universal_setup Cu serialize fsOk).2 = .ok →
        (universal_setup Cu serialize fsOk).1
          = [.stdout (serialize (universal_metadata_json
               (checksum (Cu.srsToBytesLE (Cu.universalSetup
                 (Cu.maxDegree 2000000 4000000 8000000))))
               (Cu.srsToBytesLE (Cu.universalSetup
                 (Cu.maxDegree 2000000 4000000 8000000))).length)),
             .fileWrite "universal.metadata" (.text (serialize
               (universal_metadata_json
                 (checksum (Cu.srsToBytesLE (Cu.universalSetup
                   (Cu.maxDegree 2000000 4000000 8000000))))
                 (Cu.srsToBytesLE (Cu.universalSetup
                   (Cu.maxDegree 2000000 4000000 8000000))).length))),
             .fileWrite ("universal.srs" ++ "." ++ String.mk
                 ((checksum (Cu.srsToBytesLE (Cu.universalSetup
                   (Cu.maxDegree 2000000 4000000 8000000)))).data.take 7))
               (.bytes (Cu.srsToBytesLE (Cu.universalSetup
                 (Cu.maxDegree 2000000 4000000 8000000))))])
    ∧ (∀ {SRS2 PK2 VK2 : Type} (Cp : PoswCollab SRS2 PK2 VK2),
        (posw_setup Cp serialize fsOk).2 = .ok →
        ∃ pk2, (Cp.poswSetup (Cp.srsToBytesLE (Cp.universalSetup
            (Cp.maxDegree 40000 40000 60000)))).provingKey = some pk2
          ∧ (posw_setup Cp serialize fsOk).1
            = [.stdout ("srs\n\tsize - " ++ toString (Cp.srsToBytesLE
                 (Cp.universalSetup (Cp.maxDegree 40000 40000 60000))).length),
               .stdout (serialize (posw_metadata_json
                 (checksum (Cp.pkToBytesLE pk2)) (Cp.pkToBytesLE pk2).length
                 (checksum (Cp.vkToBytesLE (Cp.poswSetup (Cp.srsToBytesLE
                   (Cp.universalSetup
                     (Cp.maxDegree 40000 40000 60000)))).verifyingKey))
                 (Cp.vkToBytesLE (Cp.poswSetup (Cp.srsToBytesLE
                   (Cp.universalSetup
                     (Cp.maxDegree 40000 40000 60000)))).verifyingKey).length)),
               .fileWrite "posw.metadata" (.text (serialize (posw_metadata_json
                 (checksum (Cp.pkToBytesLE pk2)) (Cp.pkToBytesLE pk2).length
                 (checksum (Cp.vkToBytesLE (Cp.poswSetup (Cp.srsToBytesLE
                   (Cp.universalSetup
                     (Cp.maxDegree 40000 40000 60000)))).verifyingKey))
                 (Cp.vkToBytesLE (Cp.poswSetup (Cp.srsToBytesLE
                   (Cp.universalSetup
                     (Cp.maxDegree 40000 40000 60000)))).verifyingKey).length))),
               .fileWrite ("posw.proving" ++ "." ++ String.mk
                 ((checksum (Cp.pkToBytesLE pk2)).data.take 7))
                 (.bytes (Cp.pkToBytesLE pk2)),
               .fileWrite "posw.verifying"
                 (.bytes (Cp.vkToBytesLE (Cp.poswSetup (Cp.srsToBytesLE
                   (Cp.universalSetup
                     (Cp.maxDegree 40000 40000 60000)))).verifyingKey))]) := by
  refine ⟨rfl, rfl, rfl, rfl, fun hok => ?_, fun hok => ?_, ?_⟩
  · rw [circuit_setup_eq] at hok ⊢
    cases h1 : fsOk n₁ <;>
      cases h2 : fsOk (versioned_filename n₂ (checksum (C.pkToBytesLE pk))) <;>
        cases h3 : fsOk n₃ <;>
          simp [h1, h2, h3] at hok ⊢
    all_goals simp [versioned_filename_checksum]
  · rw [universal_setup_eq] at hok ⊢
    cases h1 : fsOk "universal.metadata" <;>
      cases h2 : fsOk (versioned_filename "universal.srs"
        (checksum (Cu.srsToBytesLE (Cu.universalSetup
          (Cu.maxDegree 2000000 4000000 8000000))))) <;>
        simp [h1, h2] at hok ⊢
    all_goals simp [versioned_filename_checksum]
  · intro SRS2 PK2 VK2 Cp hok
    cases hcase : (Cp.poswSetup (Cp.srsToBytesLE (Cp.universalSetup
      (Cp.maxDegree 40000 40000 60000)))).provingKey with
    | none =>
        rw [posw_setup_eq_none Cp serialize fsOk hcase] at hok
        simp at hok
    | some pk2 =>
        refine ⟨pk2, rfl, ?_⟩
        rw [posw_setup_eq_some Cp serialize fsOk pk2 hcase] at hok ⊢
        cases h1 : fsOk "posw.metadata" <;>
          cases h2 : fsOk (versioned_filename "posw.proving"
            (checksum (Cp.pkToBytesLE pk2))) <;>
            cases h3 : fsOk "posw.verifying" <;>
              simp [h1, h2, h3] at hok ⊢
        all_goals simp [versioned_filename_checksum]

set_option maxRecDepth 8192 in
/-- Witness for C6: fully successful runs at trivial collaborators; the
empty buffer's checksum begins `e3b0c44`, so that is the versioned suffix
both for the generic per-circuit run and for the posw run. -/
theorem claim_C6_witness :
    (circuit_setup "a" "b" "c"
        (⟨fun _ => [], fun _ => [], fun _ => [], fun _ => (), fun _ => []⟩
          : CircuitCollab Unit Unit Unit)
        (fun _ => "md") (fun _ => true) () ()).1
      = [.stdout "md", .fileWrite "a" (.text "md"),
         .fileWrite "b.e3b0c44" (.bytes []), .fileWrite "c" (.bytes [])]
    ∧ (posw_setup
        (⟨fun _ _ _ => 0, fun _ => (), fun _ => [], fun _ => ⟨some (), ()⟩,
          fun _ => [], fun _ => []⟩ : PoswCollab Unit Unit Unit)
        (fun _ => "md") (fun _ => true)).1
      = [.stdout "srs\n\tsize - 0", .stdout "md",
         .fileWrite "posw.metadata" (.text "md"),
         .fileWrite "posw.proving.e3b0c44" (.bytes []),
         .fileWrite "posw.verifying" (.bytes [])] := by
  constructor
  · have h := (claim_C6_artifact_names
      (⟨fun _ => [], fun _ => [], fun _ => [], fun _ => (), fun _ => []⟩
        : CircuitCollab Unit Unit Unit)
      (⟨fun _ _ _ => 0, fun _ => (), fun _ => []⟩ : UniversalCollab Unit)
      (fun _ => "md") (fun _ => true) () () "a" "b" "c").2.2.2.2.1 rfl
    exact h.trans (by decide)
  · obtain ⟨pk2, hpk, htr⟩ := (claim_C6_artifact_names
      (⟨fun _ => [], fun _ => [], fun _ => [], fun _ => (), fun _ => []⟩
        : CircuitCollab Unit Unit Unit)
      (⟨fun _ _ _ => 0, fun _ => (), fun _ => []⟩ : UniversalCollab Unit)
      (fun _ => "md") (fun _ => true) () () "a" "b" "c").2.2.2.2.2.2
      (⟨fun _ _ _ => 0, fun _ => (), fun _ => [], fun _ => ⟨some (), ()⟩,
        fun _ => [], fun _ => []⟩ : PoswCollab Unit Unit Unit) rfl
    cases pk2
    exact htr.trans (by decide)

/-- C7: with fewer than two selector tokens the dispatcher prints the usage
diagnostic on stderr, exits successfully (`Ok(())`, exit code 0), invokes
no setup and produces no output file. -/
theorem claim_C7_usage_exit (R : SetupRunners) (args : List String)
    (h : args.length < 3) :
    mainRun R args = ([.stderrLine ("Invalid number of arguments. Given: "
        ++ toString (args.length - 1) ++ " - Required: 2")], .ok)
    ∧ ∀ n d, Event.fileWrite n d ∉ (mainRun R args).1 := by
  have heq : mainRun R args = ([.stderrLine ("Invalid number of arguments. Given: "
      ++ toString (args.length - 1) ++ " - Required: 2")], .ok) := by
    rcases args with _ | ⟨a, _ | ⟨b, _ | ⟨c, t⟩⟩⟩
    · rfl
    · rfl
    · rfl
    · exfalso
      simp only [List.length_cons] at h
      omega
  refine ⟨heq, fun n d hmem => ?_⟩
  rw [heq] at hmem
  simp at hmem

/-- Witness for C7 at a one-token invocation. -/
theorem claim_C7_witness :
    mainRun
      ⟨([], .ok), ([], .ok), ([], .ok), ([], .ok), ([], .ok), ([], .ok),
       ([], .ok), ([], .ok), ([], .ok), ([], .ok), ([], .ok)⟩ ["setup"]
      = ([.stderrLine "Invalid number of arguments. Given: 0 - Required: 2"],
         .ok) :=
  (claim_C7_usage_exit _ ["setup"] (by decide)).1

/-- C8: with two selector tokens present, an unrecognized kind, an
unrecognized network, the combination `universal` + `testnet1`, and a
proving key absent from a successful posw setup each abort the process with
a diagnostic rather than returning a propagated error. -/
theorem claim_C8_abort_paths :
    (∀ (R : SetupRunners) (p kind net : String) (rest : List String),
      kind ∉ (["inner", "posw", "universal", "input", "output",
        "value_check"] : List String) →
      mainRun R (p :: kind :: net :: rest)
        = ([], .panicked "Invalid parameter"))
    ∧ (∀ (R : SetupRunners) (p kind net : String) (rest : List String),
      kind ∈ (["inner", "posw", "universal", "input", "output",
        "value_check"] : List String) →
      net ∉ (["testnet1", "testnet2"] : List String) →
      mainRun R (p :: kind :: net :: rest)
        = ([], .panicked "Invalid network"))
    ∧ (∀ (R : SetupRunners) (p : String) (rest : List String),
      mainRun R (p :: "universal" :: "testnet1" :: rest)
        = ([], .panicked "Testnet1 does not support a universal SRS"))
    ∧ (∀ {SRS PK VK : Type} (Cp : PoswCollab SRS PK VK)
        (serialize : Json → String) (fsOk : String → Bool),
      (Cp.poswSetup (Cp.srsToBytesLE (Cp.universalSetup
        (Cp.maxDegree 40000 40000 60000)))).provingKey = none →
      (posw_setup Cp serialize fsOk).2
        = .panicked "posw_proving_key is missing") := by
  refine ⟨?_, ?_, ?_, ?_⟩
  · intro R p kind net rest hmem
    simp only [List.mem_cons, List.not_mem_nil, or_false, not_or] at hmem
    obtain ⟨e1, e2, e3, e4, e5, e6⟩ := hmem
    simp [mainRun, dispatchKind, e1, e2, e3, e4, e5, e6]
  · intro R p kind net rest hmem hnet
    simp only [List.mem_cons, List.not_mem_nil, or_false, not_or] at hnet
    obtain ⟨f1, f2⟩ := hnet
    simp only [List.mem_cons, List.not_mem_nil, or_false] at hmem
    rcases hmem with h | h | h | h | h | h <;> subst h <;>
      simp [mainRun, dispatchKind, f1, f2]
  · intro R p rest
    simp [mainRun, dispatchKind]
  · intro SRS PK VK Cp serialize fsOk hpk
    rw [posw_setup_eq_none Cp serialize fsOk hpk]

/-- Witness for C8: the four abort scenarios at concrete inputs. -/
theorem claim_C8_witness :
    mainRun
      ⟨([], .ok), ([], .ok), ([], .ok), ([], .ok), ([], .ok), ([], .ok),
       ([], .ok), ([], .ok), ([], .ok), ([], .ok), ([], .ok)⟩
      ["setup", "bogus", "testnet2"]
      = ([], .panicked "Invalid parameter")
    ∧ mainRun
      ⟨([], .ok), ([], .ok), ([], .ok), ([], .ok), ([], .ok), ([], .ok),
       ([], .ok), ([], .ok), ([], .ok), ([], .ok), ([], .ok)⟩
      ["setup", "inner", "mainnet"]
      = ([], .panicked "Invalid network")
    ∧ mainRun
      ⟨([], .ok), ([], .ok), ([], .ok), ([], .ok), ([], .ok), ([], .ok),
       ([], .ok), ([], .ok), ([], .ok), ([], .ok), ([], .ok)⟩
      ["setup", "universal", "testnet1"]
      = ([], .panicked "Testnet1 does not support a universal SRS")
    ∧ (posw_setup
        (⟨fun _ _ _ => 0, fun _ => (), fun _ => [], fun _ => ⟨none, ()⟩,
          fun _ => [], fun _ => []⟩ : PoswCollab Unit Unit Unit)
        (fun _ => "") (fun _ => true)).2
      = .panicked "posw_proving_key is missing" :=
  ⟨claim_C8_abort_paths.1 _ "setup" "bogus" "testnet2" [] (by decide),
   claim_C8_abort_paths.2.1 _ "setup" "inner" "mainnet" [] (by decide)
     (by decide),
   claim_C8_abort_paths.2.2.1 _ "setup" [],
   claim_C8_abort_paths.2.2.2 _ _ _ rfl⟩

/-- C9: the universal setup resolves its degree bound from the sizing
triple (2000000, 4000000, 8000000) and posw from (40000, 40000, 60000);
posw is two-phased — every artifact it reports derives from a second setup
call consuming the serialized reference string produced by the first
call. -/
theorem claim_C9_degree_bounds {SRS SRS2 PK2 VK2 : Type}
    (Cu : UniversalCollab SRS) (Cp : PoswCollab SRS2 PK2 VK2)
    (serialize : Json → String) (fsOk : String → Bool) :
    ((universal_setup Cu serialize fsOk).1.head?
      = some (.stdout (serialize (universal_metadata_json
          (checksum (Cu.srsToBytesLE (Cu.universalSetup
            (Cu.maxDegree 2000000 4000000 8000000))))
          (Cu.srsToBytesLE (Cu.universalSetup
            (Cu.maxDegree 2000000 4000000 8000000))).length))))
    ∧ ((posw_setup Cp serialize fsOk).1.head?
      = some (.stdout ("srs\n\tsize - " ++ toString (Cp.srsToBytesLE
          (Cp.universalSetup (Cp.maxDegree 40000 40000 60000))).length)))
    ∧ (∀ pk2, (Cp.poswSetup (Cp.srsToBytesLE (Cp.universalSetup
          (Cp.maxDegree 40000 40000 60000)))).provingKey = some pk2 →
        (posw_setup Cp serialize fsOk).1.get? 1
          = some (.stdout (serialize (posw_metadata_json
              (checksum (Cp.pkToBytesLE pk2)) (Cp.pkToBytesLE pk2).length
              (checksum (Cp.vkToBytesLE (Cp.poswSetup (Cp.srsToBytesLE
                (Cp.universalSetup
                  (Cp.maxDegree 40000 40000 60000)))).verifyingKey))
              (Cp.vkToBytesLE (Cp.poswSetup (Cp.srsToBytesLE
                (Cp.universalSetup
                  (Cp.maxDegree 40000 40000 60000)))).verifyingKey).length)))) := by
  refine ⟨?_, ?_, fun pk2 hpk => ?_⟩
  · rw [universal_setup_eq]
    cases h1 : fsOk "universal.metadata" <;>
      cases h2 : fsOk (versioned_filename "universal.srs"
        (checksum (Cu.srsToBytesLE (Cu.universalSetup
          (Cu.maxDegree 2000000 4000000 8000000))))) <;> simp [h1, h2]
  · cases hpk : (Cp.poswSetup (Cp.srsToBytesLE (Cp.universalSetup
      (Cp.maxDegree 40000 40000 60000)))).provingKey with
    | none => rw [posw_setup_eq_none Cp serialize fsOk hpk]; rfl
    | some pk2 =>
        rw [posw_setup_eq_some Cp serialize fsOk pk2 hpk]
        cases h1 : fsOk "posw.metadata" <;>
          cases h2 : fsOk (versioned_filename "posw.proving"
            (checksum (Cp.pkToBytesLE pk2))) <;>
            cases h3 : fsOk "posw.verifying" <;> simp [h1, h2, h3]
  · rw [posw_setup_eq_some Cp serialize fsOk pk2 hpk]
    cases h1 : fsOk "posw.metadata" <;>
      cases h2 : fsOk (versioned_filename "posw.proving"
        (checksum (Cp.pkToBytesLE pk2))) <;>
        cases h3 : fsOk "posw.verifying" <;> simp [h1, h2, h3]

/-- Witness for C9 at a concrete posw collaborator whose setup succeeds. -/
theorem claim_C9_witness :
    (posw_setup
      (⟨fun _ _ _ => 0, fun _ => (), fun _ => [], fun _ => ⟨some (), ()⟩,
        fun _ => [], fun _ => []⟩ : PoswCollab Unit Unit Unit)
      (fun _ => "md") (fun _ => true)).1.get? 1
      = some (.stdout "md") :=
  (claim_C9_degree_bounds
    (⟨fun _ _ _ => 0, fun _ => (), fun _ => []⟩ : UniversalCollab Unit)
    (⟨fun _ _ _ => 0, fun _ => (), fun _ => [], fun _ => ⟨some (), ()⟩,
      fun _ => [], fun _ => []⟩ : PoswCollab Unit Unit Unit)
    (fun _ => "md") (fun _ => true)).2.2 () rfl

/-- C10: every checksum is exactly 64 lowercase hex characters, so the
short-checksum fallback of `versioned_filename` is never taken inside the
pipeline: every distribution filename — the per-circuit proving key, the
universal SRS, and the posw proving key — carries a 7-character suffix
equal to the first 7 characters of the corresponding checksum field
recorded in the same run's metadata. -/
theorem claim_C10_checksum_invariants (b : List Nat) :
    ((checksum b).length = 64
      ∧ ∀ c ∈ (checksum b).data, isLowerHexChar c)
    ∧ (∀ name : String, versioned_filename name (checksum b)
        = name ++ "." ++ String.mk ((checksum b).data.take 7)
      ∧ (String.mk ((checksum b).data.take 7)).length = 7)
    ∧ (∀ {PK VK DG : Type} (C : CircuitCollab PK VK DG)
        (serialize : Json → String) (fsOk : String → Bool) (pk : PK) (vk : VK)
        (n₁ n₂ n₃ : String),
        (circuit_setup n₁ n₂ n₃ C serialize fsOk pk vk).2 = .ok →
        ∃ psize vcs vsize cid d₁ d₂ d₃,
          (circuit_setup n₁ n₂ n₃ C serialize fsOk pk vk).1
            = [.stdout (serialize (circuit_metadata_json (checksum b) psize
                vcs vsize cid)), .fileWrite n₁ d₁,
               .fileWrite (n₂ ++ "." ++ String.mk
                 ((checksum b).data.take 7)) d₂,
               .fileWrite n₃ d₃]
          ∨ C.pkToBytesLE pk ≠ b)
    ∧ (∀ {SRS : Type} (Cu : UniversalCollab SRS) (serialize : Json → String)
        (fsOk : String → Bool),
        (universal_setup Cu serialize fsOk).2 = .ok →
        ∃ size d₁ d₂,
          (universal_setup Cu serialize fsOk).1
            = [.stdout (serialize (universal_metadata_json (checksum b) size)),
               .fileWrite "universal.metadata" d₁,
               .fileWrite ("universal.srs" ++ "." ++ String.mk
                 ((checksum b).data.take 7)) d₂]
          ∨ Cu.srsToBytesLE (Cu.universalSetup
              (Cu.maxDegree 2000000 4000000 8000000)) ≠ b)
    ∧ (∀ {SRS PK VK : Type} (Cp : PoswCollab SRS PK VK)
        (serialize : Json → String) (fsOk : String → Bool) (pk2 : PK),
        (Cp.poswSetup (Cp.srsToBytesLE (Cp.universalSetup
          (Cp.maxDegree 40000 40000 60000)))).provingKey = some pk2 →
        (posw_setup Cp serialize fsOk).2 = .ok →
        ∃ s0 psize vcs vsize d₁ d₂ d₃,
          (posw_setup Cp serialize fsOk).1
            = [.stdout s0,
               .stdout (serialize (posw_metadata_json (checksum b) psize
                 vcs vsize)),
               .fileWrite "posw.metadata" d₁,
               .fileWrite ("posw.proving" ++ "." ++ String.mk
                 ((checksum b).data.take 7)) d₂,
               .fileWrite "posw.verifying" d₃]
          ∨ Cp.pkToBytesLE pk2 ≠ b) := by
  refine ⟨⟨checksum_length b, fun c hc => hexEncode_chars hc⟩,
    fun name => ⟨versioned_filename_checksum name b, ?_⟩, ?_, ?_, ?_⟩
  · show ((checksum b).data.take 7).length = 7
    rw [List.length_take]
    have h := checksum_length b
    rw [show (checksum b).length = (checksum b).data.length from rfl] at h
    omega
  · intro PK VK DG C serialize fsOk pk vk n₁ n₂ n₃ hok
    by_cases hb : C.pkToBytesLE pk = b
    · subst hb
      rw [circuit_setup_eq] at hok
      refine ⟨(C.pkToBytesLE pk).length, checksum (C.vkToBytesLE vk),
        (C.vkToBytesLE vk).length, derive_identity C vk,
        .text (serialize (circuit_metadata_json (checksum (C.pkToBytesLE pk))
          (C.pkToBytesLE pk).length (checksum (C.vkToBytesLE vk))
          (C.vkToBytesLE vk).length (derive_identity C vk))),
        .bytes (C.pkToBytesLE pk), .bytes (C.vkToBytesLE vk),
        Or.inl ?_⟩
      rw [circuit_setup_eq]
      cases h1 : fsOk n₁ <;>
        cases h2 : fsOk (versioned_filename n₂
          (checksum (C.pkToBytesLE pk))) <;>
          cases h3 : fsOk n₃ <;> simp [h1, h2, h3] at hok ⊢
      exact versioned_filename_checksum n₂ (C.pkToBytesLE pk)
    · exact ⟨0, "", 0, "", .bytes [], .bytes [], .bytes [],
        Or.inr hb⟩
  · intro SRS Cu serialize fsOk hok
    by_cases hb : Cu.srsToBytesLE (Cu.universalSetup
      (Cu.maxDegree 2000000 4000000 8000000)) = b
    · subst hb
      refine ⟨(Cu.srsToBytesLE (Cu.universalSetup
          (Cu.maxDegree 2000000 4000000 8000000))).length,
        .text (serialize (universal_metadata_json
          (checksum (Cu.srsToBytesLE (Cu.universalSetup
            (Cu.maxDegree 2000000 4000000 8000000))))
          (Cu.srsToBytesLE (Cu.universalSetup
            (Cu.maxDegree 2000000 4000000 8000000))).length)),
        .bytes (Cu.srsToBytesLE (Cu.universalSetup
          (Cu.maxDegree 2000000 4000000 8000000))),
        Or.inl ?_⟩
      rw [universal_setup_eq] at hok ⊢
      cases h1 : fsOk "universal.metadata" <;>
        cases h2 : fsOk (versioned_filename "universal.srs"
          (checksum (Cu.srsToBytesLE (Cu.universalSetup
            (Cu.maxDegree 2000000 4000000 8000000))))) <;>
          simp [h1, h2] at hok ⊢
      all_goals simp [versioned_filename_checksum]
    · exact ⟨0, .bytes [], .bytes [], Or.inr hb⟩
  · intro SRS PK VK Cp serialize fsOk pk2 hpk hok
    by_cases hb : Cp.pkToBytesLE pk2 = b
    · subst hb
      refine ⟨"srs\n\tsize - " ++ toString (Cp.srsToBytesLE
          (Cp.universalSetup (Cp.maxDegree 40000 40000 60000))).length,
        (Cp.pkToBytesLE pk2).length,
        checksum (Cp.vkToBytesLE (Cp.poswSetup (Cp.srsToBytesLE
          (Cp.universalSetup
            (Cp.maxDegree 40000 40000 60000)))).verifyingKey),
        (Cp.vkToBytesLE (Cp.poswSetup (Cp.srsToBytesLE
          (Cp.universalSetup
            (Cp.maxDegree 40000 40000 60000)))).verifyingKey).length,
        .text (serialize (posw_metadata_json
          (checksum (Cp.pkToBytesLE pk2)) (Cp.pkToBytesLE pk2).length
          (checksum (Cp.vkToBytesLE (Cp.poswSetup (Cp.srsToBytesLE
            (Cp.universalSetup
              (Cp.maxDegree 40000 40000 60000)))).verifyingKey))
          (Cp.vkToBytesLE (Cp.poswSetup (Cp.srsToBytesLE
            (Cp.universalSetup
              (Cp.maxDegree 40000 40000 60000)))).verifyingKey).length)),
        .bytes (Cp.pkToBytesLE pk2),
        .bytes (Cp.vkToBytesLE (Cp.poswSetup (Cp.srsToBytesLE
          (Cp.universalSetup
            (Cp.maxDegree 40000 40000 60000)))).verifyingKey),
        Or.inl ?_⟩
      rw [posw_setup_eq_some Cp serialize fsOk pk2 hpk] at hok ⊢
      cases h1 : fsOk "posw.metadata" <;>
        cases h2 : fsOk (versioned_filename "posw.proving"
          (checksum (Cp.pkToBytesLE pk2))) <;>
          cases h3 : fsOk "posw.verifying" <;>
            simp [h1, h2, h3] at hok ⊢
      all_goals simp [versioned_filename_checksum]
    · exact ⟨"", 0, "", 0, .bytes [], .bytes [], .bytes [],
        Or.inr hb⟩

/-- Witness for C10: the three pipeline-consistency conjuncts at
successful concrete runs. -/
theorem claim_C10_witness :
    (∃ psize vcs vsize cid d₁ d₂ d₃,
      (circuit_setup "a" "b" "c"
          (⟨fun _ => [], fun _ => [], fun _ => [], fun _ => (), fun _ => []⟩
            : CircuitCollab Unit Unit Unit)
          (fun _ => "md") (fun _ => true) () ()).1
        = [.stdout ((fun _ : Json => "md") (circuit_metadata_json
            (checksum []) psize vcs vsize cid)), .fileWrite "a" d₁,
           .fileWrite ("b" ++ "." ++ String.mk
             ((checksum ([] : List Nat)).data.take 7)) d₂,
           .fileWrite "c" d₃]
        ∨ (fun _ : Unit => ([] : List Nat)) () ≠ [])
    ∧ (∃ size d₁ d₂,
      (universal_setup
          (⟨fun _ _ _ => 0, fun _ => (), fun _ => []⟩ : UniversalCollab Unit)
          (fun _ => "md") (fun _ => true)).1
        = [.stdout ((fun _ : Json => "md") (universal_metadata_json
            (checksum []) size)),
           .fileWrite "universal.metadata" d₁,
           .fileWrite ("universal.srs" ++ "." ++ String.mk
             ((checksum ([] : List Nat)).data.take 7)) d₂]
        ∨ (fun _ : Unit => ([] : List Nat)) () ≠ [])
    ∧ (∃ s0 psize vcs vsize d₁ d₂ d₃,
      (posw_setup
          (⟨fun _ _ _ => 0, fun _ => (), fun _ => [], fun _ => ⟨some (), ()⟩,
            fun _ => [], fun _ => []⟩ : PoswCollab Unit Unit Unit)
          (fun _ => "md") (fun _ => true)).1
        = [.stdout s0,
           .stdout ((fun _ : Json => "md") (posw_metadata_json
             (checksum []) psize vcs vsize)),
           .fileWrite "posw.metadata" d₁,
           .fileWrite ("posw.proving" ++ "." ++ String.mk
             ((checksum ([] : List Nat)).data.take 7)) d₂,
           .fileWrite "posw.verifying" d₃]
        ∨ (fun _ : Unit => ([] : List Nat)) () ≠ []) :=
  ⟨(claim_C10_checksum_invariants []).2.2.1
    (⟨fun _ => [], fun _ => [], fun _ => [], fun _ => (), fun _ => []⟩
      : CircuitCollab Unit Unit Unit)
    (fun _ => "md") (fun _ => true) () () "a" "b" "c" rfl,
   (claim_C10_checksum_invariants []).2.2.2.1
    (⟨fun _ _ _ => 0, fun _ => (), fun _ => []⟩ : UniversalCollab Unit)
    (fun _ => "md") (fun _ => true) rfl,
   (claim_C10_checksum_invariants []).2.2.2.2
    (⟨fun _ _ _ => 0, fun _ => (), fun _ => [], fun _ => ⟨some (), ()⟩,
      fun _ => [], fun _ => []⟩ : PoswCollab Unit Unit Unit)
    (fun _ => "md") (fun _ => true) () rfl rfl⟩

end SnarkVMSetup
